import Mathlib

/-!
Shallow embedding of the security core of the Mentora Calendar Agent
backend: the CORS origin authorizer (`isOriginAllowed` in
`src/calendar-agent/src/app.js`) and the authentication middleware
(`authenticate`, `optionalAuth`, `requireGoogleIntegration`).

JavaScript strings are modelled as lists of characters (`Str`).  The
external collaborators are modelled explicitly: the Supabase token
verification call and the Google-integration lookup become oracle
parameters, and the WHATWG URL parser provided by the Node runtime
(`new URL(...)`) becomes an executable model function
(`parseURLHostname`).
-/

/-- Strings of the JavaScript source are modelled as lists of characters. -/
abbrev Str := List Char

/-- Convert a Lean string literal to the character-list model. -/
def str (s : String) : Str := s.data

/-- JavaScript falsiness of an optional string value: `undefined` and the
empty string are falsy (this is what `!origin` tests in the source). -/
abbrev jsFalsy (o : Option Str) : Prop := o = none ∨ o = some []

/-- JavaScript truthiness of an optional string value, as a boolean. -/
def jsTruthy : Option Str → Bool
  | some (_ :: _) => true
  | _ => false

/-!
### Model of the Node `new URL(origin).hostname` collaborator

The origin authorizer calls the runtime's WHATWG URL parser inside a
`try`/`catch`; the only observations the source makes are (a) whether the
constructor throws and (b) the resulting `hostname`.  `parseURLHostname`
models exactly that pair (`none` = the constructor throws) for ASCII
origin-shaped inputs.  Model restrictions (documented, not exercised by
any theorem below): IPv6 bracket hosts and percent-encoded hosts are
treated as parse failures, and the WHATWG tab/newline stripping
preprocessing is not modelled.
-/

/-- Characters permitted inside a URL scheme after the first one. -/
def schemeChar (c : Char) : Bool :=
  c.isAlpha || c.isDigit || c = '+' || c = '-' || c = '.'

/-- Scanner for the scheme: accumulate scheme characters up to the first
':'; fail if the input ends or an illegal character appears first. -/
def schemeSplitGo (acc : Str) : Str → Option (Str × Str)
  | [] => none
  | c :: rest =>
    if c = ':' then some (acc.map Char.toLower, rest)
    else if schemeChar c then schemeSplitGo (acc ++ [c]) rest
    else none

/-- Split `scheme:rest`; the first character must be alphabetic. -/
def splitScheme : Str → Option (Str × Str)
  | [] => none
  | c :: rest => if c.isAlpha then schemeSplitGo [c] rest else none

/-- The WHATWG special schemes (their authority parsing differs). -/
def specialSchemes : List Str :=
  [str "http", str "https", str "ws", str "wss", str "ftp", str "file"]

/-- Characters that terminate the authority component. -/
def authorityEnd (c : Char) : Bool :=
  c = '/' || c = '?' || c = '#' || c = '\\'

/-- Strip the userinfo part: keep what follows the last '@'. -/
def hostPortOf (auth : Str) : Str :=
  (auth.reverse.takeWhile (fun c => c ≠ '@')).reverse

/-- Characters that are forbidden inside a (domain) host. -/
def forbiddenHostChar (c : Char) : Bool :=
  decide (c ≤ ' ') || c = '#' || c = '/' || c = ':' || c = '?' || c = '@' ||
  c = '[' || c = '\\' || c = ']' || c = '<' || c = '>' || c = '^' ||
  c = '|' || c = '%' || decide (c.val = 127)

/-- Numeric value of a digit string (used for the port bound check). -/
def portVal (p : Str) : Nat :=
  p.foldl (fun n c => n * 10 + (c.toNat - 48)) 0

/-- A port string is valid when it is empty or all digits with value at
most 65535 (the WHATWG bound). -/
def portOk (p : Str) : Bool :=
  p.all Char.isDigit && decide (portVal p ≤ 65535)

/-- Parse an authority component into a lowercased hostname, or fail. -/
def parseAuthority (allowEmptyHost : Bool) (s : Str) : Option Str :=
  let auth := s.takeWhile (fun c => !(authorityEnd c))
  let hp := hostPortOf auth
  let host := hp.takeWhile (fun c => c ≠ ':')
  let port := (hp.dropWhile (fun c => c ≠ ':')).drop 1
  if host.isEmpty && !allowEmptyHost then none
  else if host.any forbiddenHostChar then none
  else if !(portOk port) then none
  else some (host.map Char.toLower)

/-- Model of `new URL(s).hostname`: `some hostname` when the constructor
succeeds, `none` when it throws (`Invalid URL`). -/
def parseURLHostname (s : Str) : Option Str :=
  match splitScheme s with
  | none => none
  | some (scheme, rest) =>
    if scheme ∈ specialSchemes then
      parseAuthority false (rest.dropWhile (fun c => c = '/' || c = '\\'))
    else if rest.take 2 = str "//" then
      parseAuthority true (rest.drop 2)
    else some []

/-!
### The origin authorizer (`isOriginAllowed`, `src/calendar-agent/src/app.js`)
-/

/-- The default `allowedOrigins` configuration of the source (used when the
`CORS_ORIGINS` environment override is absent). -/
def defaultAllowedOrigins : List Str :=
  [str "https://mentora-agentic-ai-frontend.vercel.app",
   str "http://localhost:3000",
   str "http://localhost:3001"]

/-- JavaScript `s.replace(pat, '')` with a string pattern: delete the first
occurrence of `pat` from `s` (no change when `pat` does not occur). -/
def replaceFirst (pat : Str) : Str → Str
  | [] => []
  | c :: rest =>
    if pat <+: (c :: rest) then (c :: rest).drop pat.length
    else c :: replaceFirst pat rest

/-- The subdomain the source computes inside the Vercel suffix rule:
`new URL(origin).hostname.replace('.vercel.app', '')`, reported as `none`
when URL parsing throws. -/
def vercelSubdomainOf (o : Str) : Option Str :=
  (parseURLHostname o).map (fun h => replaceFirst (str ".vercel.app") h)

/-- The project-name token test of the source: the subdomain starts with
`mentora-agentic-ai-frontend` or contains `mentora`. -/
abbrev vercelTokenMatch (d : Str) : Prop :=
  str "mentora-agentic-ai-frontend" <+: d ∨ str "mentora" <:+: d

/-- Token test lifted to the optional subdomain (parse failure inside the
`try` block is caught, so no subdomain means the rule does not permit). -/
def optTokenMatch : Option Str → Prop
  | some d => vercelTokenMatch d
  | none => False

instance instDecOptTokenMatch : (x : Option Str) → Decidable (optTokenMatch x)
  | some d => inferInstanceAs (Decidable (vercelTokenMatch d))
  | none => inferInstanceAs (Decidable False)

/-- Body of `isOriginAllowed` for a present, non-empty origin string: the
ordered rule chain of the source (exact allow-list match, wildcard
sentinel, Vercel suffix rule, insecure loopback rule, default deny). -/
def isOriginAllowedStr (cfg : List Str) (o : Str) : Bool :=
  if o ∈ cfg then true
  else if str "*" ∈ cfg then true
  else if str ".vercel.app" <:+ o ∧ optTokenMatch (vercelSubdomainOf o) then true
  else if str "http://localhost:" <+: o ∨ str "http://127.0.0.1:" <+: o then true
  else false

/-- `isOriginAllowed(origin)` of `src/calendar-agent/src/app.js`: a falsy
origin (absent, or the empty string) is permitted at once; otherwise the
ordered rule chain decides. -/
def isOriginAllowed (cfg : List Str) (origin : Option Str) : Bool :=
  if jsFalsy origin then true
  else isOriginAllowedStr cfg (origin.getD [])

/-!
### Spec-side restatement of the origin policy (for the refinement claim)

`specOriginPolicy` is written from the words of the specification's
ordered first-match-wins algorithm (claim C9 / spec section 4.1), to be
compared against the source-derived `isOriginAllowed`.
-/

/-- Spec rule 1: an absent origin is permitted (same-origin or
non-browser client); the source treats an empty origin string the same
way as an absent one. -/
abbrev specAbsentOrigin (o : Option Str) : Prop := o = none ∨ o = some []

/-- Spec rule 2: an origin exactly matching the configured allow-list. -/
abbrev specExactMatch (cfg : List Str) (o : Str) : Prop := o ∈ cfg

/-- Spec rule 3: the wildcard sentinel is configured. -/
abbrev specWildcard (cfg : List Str) : Prop := str "*" ∈ cfg

/-- Spec rule 4: a `.vercel.app`-suffixed origin whose subdomain matches
the configured project-name token. -/
abbrev specPreviewRule (o : Str) : Prop :=
  str ".vercel.app" <:+ o ∧ optTokenMatch (vercelSubdomainOf o)

/-- Spec rule 5: an insecure-scheme loopback origin with any port. -/
abbrev specLoopback (o : Str) : Prop :=
  str "http://localhost:" <+: o ∨ str "http://127.0.0.1:" <+: o

/-- The ordered first-match-wins decision as the specification states it. -/
def specOriginPolicy (cfg : List Str) (origin : Option Str) : Bool :=
  if specAbsentOrigin origin then true
  else
    let o := origin.getD []
    if specExactMatch cfg o then true
    else if specWildcard cfg then true
    else if specPreviewRule o then true
    else if specLoopback o then true
    else false

/-!
### The authentication middleware (`authenticate`, `optionalAuth`,
`requireGoogleIntegration`)
-/

/-- The principal returned by the identity-provider collaborator
(Supabase `user` object): an id plus provider-supplied claims. -/
structure Principal where
  id : Str
  claims : List (Str × Str)
deriving DecidableEq

/-- Outcome of the identity-provider verification call
`supabase.auth.getUser(token)` as the middleware observes it:
`success` = no error and a non-null user; `failure` = an error result or a
null user; `exception` = the awaited call itself throws (for example the
provider is unreachable). -/
inductive GetUserResult where
  | success (user : Principal)
  | failure (errMsg : Option Str)
  | exception (errMsg : Str)
deriving DecidableEq

/-- The request state the middleware reads and writes: the two credential
headers, and the principal fields it may attach (`req.userId`,
`req.user`). -/
structure AuthRequest where
  authorization : Option Str
  xUserId : Option Str
  userId : Option Str
  user : Option Principal
deriving DecidableEq

/-- Outcome of a middleware invocation: `next` = `next()` was called with
the final request state; `reject` = an `AppError(status, message)` was
thrown, with the request state at throw time. -/
inductive AuthOutcome where
  | next (req : AuthRequest)
  | reject (status : Nat) (message : Str) (req : AuthRequest)
deriving DecidableEq

/-- The bearer-branch guard of the source
(`authHeader && authHeader.startsWith('Bearer ')`), returning the
extracted token `authHeader.substring(7)` when the guard holds. -/
def bearerToken : Option Str → Option Str
  | some ah =>
    if ah ≠ [] ∧ str "Bearer " <+: ah then some (ah.drop 7) else none
  | none => none

/-- Hexadecimal character class of the UUID regex (case-insensitive). -/
def isHexChar (c : Char) : Bool :=
  (decide ('0' ≤ c) && decide (c ≤ '9')) ||
  (decide ('a' ≤ c) && decide (c ≤ 'f')) ||
  (decide ('A' ≤ c) && decide (c ≤ 'F'))

/-- Model of the source's UUID regex
`/^[0-9a-f]{8}-[0-9a-f]{4}-[0-9a-f]{4}-[0-9a-f]{4}-[0-9a-f]{12}$/i`:
splitting on '-' must yield exactly five all-hex groups of lengths
8, 4, 4, 4, 12 (hex characters are never '-', so this is the regex). -/
def uuidRegexTest (s : Str) : Bool :=
  match s.splitOn '-' with
  | [a, b, c, d, e] =>
    decide (a.length = 8) && decide (b.length = 4) && decide (c.length = 4) &&
    decide (d.length = 4) && decide (e.length = 12) &&
    a.all isHexChar && b.all isHexChar && c.all isHexChar &&
    d.all isHexChar && e.all isHexChar
  | _ => false

/-- `authenticate(req, res, next)` of the middleware.  `getUser` is the
identity-provider collaborator, `nodeEnv` is `process.env.NODE_ENV`.
The outer `catch` rethrows `AppError`s unchanged and normalizes every
other exception to `AppError('Authentication failed', 401)`. -/
def authenticate (getUser : Str → GetUserResult) (nodeEnv : Option Str)
    (req : AuthRequest) : AuthOutcome :=
  match bearerToken req.authorization with
  | some token =>
    match getUser token with
    | .success u => .next { req with userId := some u.id, user := some u }
    | .failure _ =>
      .reject 401 (str "Invalid or expired authentication token") req
    | .exception _ => .reject 401 (str "Authentication failed") req
  | none =>
    if nodeEnv ≠ some (str "production") ∧ jsTruthy req.xUserId = true then
      if uuidRegexTest (req.xUserId.getD []) = false then
        .reject 400 (str "Invalid user ID format") req
      else .next { req with userId := some (req.xUserId.getD []) }
    else .reject 401 (str "Authentication required. Please sign in.") req

/-- `optionalAuth(req, res, next)`: same precedence as `authenticate`,
but no branch throws — an unverifiable bearer token, an invalid legacy
header, a verification exception, or no credentials at all each proceed
to `next()` without attaching a principal. -/
def optionalAuth (getUser : Str → GetUserResult) (nodeEnv : Option Str)
    (req : AuthRequest) : AuthOutcome :=
  match bearerToken req.authorization with
  | some token =>
    match getUser token with
    | .success u => .next { req with userId := some u.id, user := some u }
    | .failure _ => .next req
    | .exception _ => .next req
  | none =>
    if nodeEnv ≠ some (str "production") ∧ jsTruthy req.xUserId = true then
      if uuidRegexTest (req.xUserId.getD []) = true then
        .next { req with userId := some (req.xUserId.getD []) }
      else .next req
    else .next req

/-- Outcome of the integration-status collaborator
`hasValidGoogleIntegration(userId)`: a boolean result, or the awaited
call throwing. -/
inductive LookupResult where
  | ok (b : Bool)
  | threw (msg : Str)
deriving DecidableEq

/-- Outcome of the integration gate: `next()`, a thrown
`AppError(status, message)`, or a raw (non-`AppError`) exception
propagating out of the middleware uncaught. -/
inductive GateOutcome where
  | next
  | reject (status : Nat) (message : Str)
  | uncaught (msg : Str)
deriving DecidableEq

/-- `requireGoogleIntegration(req, res, next)`: 401 when no truthy
`req.userId` is attached, otherwise one collaborator lookup; a falsy
lookup result is a 403, a true result proceeds, and the function has no
`try`/`catch`, so a throwing lookup propagates unchanged. -/
def requireGoogleIntegration (lookup : Str → LookupResult)
    (req : AuthRequest) : GateOutcome :=
  if jsTruthy req.userId = false then
    .reject 401 (str "Authentication required")
  else
    match lookup (req.userId.getD []) with
    | .ok true => .next
    | .ok false =>
      .reject 403
        (str "Google account not connected. Please connect your Google account first.")
    | .threw m => .uncaught m

/-!
### Helper lemmas
-/

/-- Dropping the `Bearer ` scheme from a well-formed header recovers the
token. -/
theorem bearerToken_append (t : Str) :
    bearerToken (some (str "Bearer " ++ t)) = some t := by
  simp only [bearerToken]
  rw [if_pos ⟨List.cons_ne_nil _ _, List.prefix_append _ _⟩]
  rfl

/-- A present, non-empty header value is truthy. -/
theorem jsTruthy_some {u : Str} (h : u ≠ []) : jsTruthy (some u) = true := by
  cases u with
  | nil => exact absurd rfl h
  | cons c cs => rfl

/-- Sample principal used by the concrete witness theorems. -/
def samplePrincipal : Principal :=
  { id := str "user-0001", claims := [(str "email", str "dev@example.com")] }

/-!
### Claim theorems: the required identity resolver (`authenticate`)
-/

/-- C2: in production, with an `X-User-Id` header holding a well-formed
UUID and no `Authorization` bearer token, `authenticate` rejects with
status 401: the legacy-header fallback path is unconditionally disabled
in production regardless of header presence. -/
theorem c2_production_disables_legacy_fallback
    (getUser : Str → GetUserResult) (req : AuthRequest) (u : Str)
    (hx : req.xUserId = some u) (huuid : uuidRegexTest u = true)
    (hnob : bearerToken req.authorization = none) :
    authenticate getUser (some (str "production")) req =
      .reject 401 (str "Authentication required. Please sign in.") req := by
  simp only [authenticate, hnob]
  rw [if_neg (fun h => h.1 rfl)]

theorem c2_witness :
    authenticate (fun _ => GetUserResult.failure none) (some (str "production"))
      { authorization := none,
        xUserId := some (str "123e4567-e89b-12d3-a456-426614174000"),
        userId := none, user := none } =
      .reject 401 (str "Authentication required. Please sign in.")
        { authorization := none,
          xUserId := some (str "123e4567-e89b-12d3-a456-426614174000"),
          userId := none, user := none } :=
  c2_production_disables_legacy_fallback _ _
    (str "123e4567-e89b-12d3-a456-426614174000") rfl (by decide) rfl

/-- C3: with a `Bearer` token for which the identity provider returns
principal `u`, `authenticate` attaches `u` (id and claims) to the request
and proceeds to `next` exactly once (modelled: the single outcome is
`next` carrying the principal); when the provider returns an error or no
principal, it rejects with 401 and attaches no principal (the request
state is returned unchanged). -/
theorem c3_bearer_verification
    (getUser : Str → GetUserResult) (nodeEnv : Option Str)
    (req : AuthRequest) (t : Str) (u : Principal)
    (hauth : req.authorization = some (str "Bearer " ++ t)) :
    (getUser t = .success u →
      authenticate getUser nodeEnv req =
        .next { req with userId := some u.id, user := some u }) ∧
    (∀ m, getUser t = .failure m →
      authenticate getUser nodeEnv req =
        .reject 401 (str "Invalid or expired authentication token") req) := by
  constructor
  · intro hs
    simp only [authenticate, hauth, bearerToken_append, hs]
  · intro m hf
    simp only [authenticate, hauth, bearerToken_append, hf]

theorem c3_witness :
    (authenticate (fun _ => GetUserResult.success samplePrincipal) none
      { authorization := some (str "Bearer tok123"), xUserId := none,
        userId := none, user := none } =
      .next { authorization := some (str "Bearer tok123"), xUserId := none,
              userId := some samplePrincipal.id, user := some samplePrincipal }) ∧
    (authenticate (fun _ => GetUserResult.failure (some (str "bad token"))) none
      { authorization := some (str "Bearer tok123"), xUserId := none,
        userId := none, user := none } =
      .reject 401 (str "Invalid or expired authentication token")
        { authorization := some (str "Bearer tok123"), xUserId := none,
          userId := none, user := none }) :=
  ⟨(c3_bearer_verification _ none _ (str "tok123") samplePrincipal rfl).1 rfl,
   (c3_bearer_verification _ none _ (str "tok123") samplePrincipal rfl).2
     (some (str "bad token")) rfl⟩

/-- C7: an unexpected (non-`AppError`) exception raised while evaluating
the bearer credential — for example the identity provider being
unreachable — is caught and normalized to a 401 rejection whose message
is the fixed generic string `Authentication failed`; the original error
detail `m` does not appear in the outcome. -/
theorem c7_unexpected_error_normalized
    (getUser : Str → GetUserResult) (nodeEnv : Option Str)
    (req : AuthRequest) (t m : Str)
    (hauth : bearerToken req.authorization = some t)
    (hexc : getUser t = .exception m) :
    authenticate getUser nodeEnv req =
      .reject 401 (str "Authentication failed") req := by
  simp only [authenticate, hauth, hexc]

theorem c7_witness :
    authenticate (fun _ => GetUserResult.exception (str "connect ECONNREFUSED"))
      none
      { authorization := some (str "Bearer tok123"), xUserId := none,
        userId := none, user := none } =
      .reject 401 (str "Authentication failed")
        { authorization := some (str "Bearer tok123"), xUserId := none,
          userId := none, user := none } :=
  c7_unexpected_error_normalized _ none _ (str "tok123")
    (str "connect ECONNREFUSED") (by decide) rfl

/-- C8: outside production, with no bearer token and a present non-empty
`X-User-Id` header that does not match the UUID textual format
(8-4-4-4-12 hexadecimal groups, case-insensitive), `authenticate`
rejects with status 400. -/
theorem c8_nonprod_invalid_uuid_rejected_400
    (getUser : Str → GetUserResult) (nodeEnv : Option Str)
    (req : AuthRequest) (u : Str)
    (henv : nodeEnv ≠ some (str "production"))
    (hnob : bearerToken req.authorization = none)
    (hx : req.xUserId = some u) (hne : u ≠ [])
    (huuid : uuidRegexTest u = false) :
    authenticate getUser nodeEnv req =
      .reject 400 (str "Invalid user ID format") req := by
  simp only [authenticate, hnob, hx, Option.getD_some]
  rw [if_pos ⟨henv, jsTruthy_some hne⟩, if_pos huuid]

theorem c8_witness :
    authenticate (fun _ => GetUserResult.failure none) none
      { authorization := none, xUserId := some (str "not-a-uuid"),
        userId := none, user := none } =
      .reject 400 (str "Invalid user ID format")
        { authorization := none, xUserId := some (str "not-a-uuid"),
          userId := none, user := none } :=
  c8_nonprod_invalid_uuid_rejected_400 _ none _ (str "not-a-uuid")
    (by decide) rfl rfl (by decide) (by decide)

/-!
### Claim theorems: the integration gate and the optional resolver
-/

/-- C5: `requireGoogleIntegration` is a trichotomy on its inputs: no
attached principal rejects 401; an attached principal whose
integration-status lookup returns false rejects 403; a lookup returning
true proceeds to `next`. -/
theorem c5_integration_gate_trichotomy
    (lookup : Str → LookupResult) (req : AuthRequest) :
    (jsTruthy req.userId = false →
      requireGoogleIntegration lookup req =
        .reject 401 (str "Authentication required")) ∧
    (∀ uid, req.userId = some uid → uid ≠ [] → lookup uid = .ok false →
      requireGoogleIntegration lookup req =
        .reject 403 (str "Google account not connected. Please connect your Google account first.")) ∧
    (∀ uid, req.userId = some uid → uid ≠ [] → lookup uid = .ok true →
      requireGoogleIntegration lookup req = .next) := by
  refine ⟨?_, ?_, ?_⟩
  · intro h
    unfold requireGoogleIntegration
    rw [if_pos h]
  · intro uid huid hne hlk
    have ht : jsTruthy req.userId = true := by rw [huid]; exact jsTruthy_some hne
    unfold requireGoogleIntegration
    rw [if_neg (fun hf => Bool.noConfusion (ht.symm.trans hf))]
    simp only [huid, Option.getD_some, hlk]
  · intro uid huid hne hlk
    have ht : jsTruthy req.userId = true := by rw [huid]; exact jsTruthy_some hne
    unfold requireGoogleIntegration
    rw [if_neg (fun hf => Bool.noConfusion (ht.symm.trans hf))]
    simp only [huid, Option.getD_some, hlk]

theorem c5_witness :
    (requireGoogleIntegration (fun _ => LookupResult.ok true)
      { authorization := none, xUserId := none, userId := none, user := none } =
      .reject 401 (str "Authentication required")) ∧
    (requireGoogleIntegration (fun _ => LookupResult.ok false)
      { authorization := none, xUserId := none,
        userId := some (str "user-0001"), user := none } =
      .reject 403 (str "Google account not connected. Please connect your Google account first.")) ∧
    (requireGoogleIntegration (fun _ => LookupResult.ok true)
      { authorization := none, xUserId := none,
        userId := some (str "user-0001"), user := none } = .next) :=
  ⟨(c5_integration_gate_trichotomy _ _).1 rfl,
   (c5_integration_gate_trichotomy _ _).2.1 (str "user-0001") rfl (by decide) rfl,
   (c5_integration_gate_trichotomy _ _).2.2 (str "user-0001") rfl (by decide) rfl⟩

/-- C10: when the integration-status lookup itself throws, the gate
performs no normalization: the raw exception propagates out of
`requireGoogleIntegration` unchanged (the outcome is `uncaught` with the
original message, not a 401 or 403 rejection). -/
theorem c10_gate_lookup_exception_propagates
    (lookup : Str → LookupResult) (req : AuthRequest) (uid m : Str)
    (huid : req.userId = some uid) (hne : uid ≠ [])
    (hlk : lookup uid = .threw m) :
    requireGoogleIntegration lookup req = .uncaught m := by
  have ht : jsTruthy req.userId = true := by rw [huid]; exact jsTruthy_some hne
  unfold requireGoogleIntegration
  rw [if_neg (fun hf => Bool.noConfusion (ht.symm.trans hf))]
  simp only [huid, Option.getD_some, hlk]

theorem c10_witness :
    requireGoogleIntegration (fun _ => LookupResult.threw (str "fetch failed"))
      { authorization := none, xUserId := none,
        userId := some (str "user-0001"), user := none } =
      .uncaught (str "fetch failed") :=
  c10_gate_lookup_exception_propagates _ _ (str "user-0001")
    (str "fetch failed") rfl (by decide) rfl

/-- C6: under any combination of missing or invalid credentials (no
usable bearer credential, and no valid non-production legacy credential),
`optionalAuth` proceeds to `next` with the request unchanged: it never
rejects and attaches no principal; a verification error or exception is
swallowed and treated as no principal. -/
theorem c6_optional_auth_invalid_credentials_proceed
    (getUser : Str → GetUserResult) (nodeEnv : Option Str) (req : AuthRequest)
    (hb : ∀ t u, bearerToken req.authorization = some t →
      getUser t ≠ .success u)
    (hl : nodeEnv ≠ some (str "production") ∧ jsTruthy req.xUserId = true →
      uuidRegexTest (req.xUserId.getD []) = false) :
    optionalAuth getUser nodeEnv req = .next req := by
  cases hbt : bearerToken req.authorization with
  | some t =>
    cases hg : getUser t with
    | success u => exact absurd hg (hb t u hbt)
    | failure m => simp only [optionalAuth, hbt, hg]
    | exception m => simp only [optionalAuth, hbt, hg]
  | none =>
    by_cases hc : nodeEnv ≠ some (str "production") ∧ jsTruthy req.xUserId = true
    · simp only [optionalAuth, hbt]
      rw [if_pos hc, if_neg (fun h => Bool.noConfusion ((hl hc).symm.trans h))]
    · simp only [optionalAuth, hbt]
      rw [if_neg hc]

theorem c6_witness :
    optionalAuth (fun _ => GetUserResult.exception (str "connect ECONNREFUSED"))
      none
      { authorization := some (str "Bearer tok123"),
        xUserId := some (str "not-a-uuid"), userId := none, user := none } =
      .next
        { authorization := some (str "Bearer tok123"),
          xUserId := some (str "not-a-uuid"), userId := none, user := none } :=
  c6_optional_auth_invalid_credentials_proceed _ none _
    (fun t u _ h => GetUserResult.noConfusion h)
    (fun h => by decide)

/-!
### Claim theorems: the origin authorizer
-/

/-- C1 counterexample: the origin `http://localhost:x.vercel.app` is not
parseable as a URL (its port is not numeric, so `new URL` throws inside
the suffix rule), yet `isOriginAllowed` permits it through the
loopback-prefix rule: a string that is not parseable as a URL is not
always denied, and the exception raised during the suffix-match rule
resolves to permit here, not to deny. -/
theorem c1_counterexample :
    parseURLHostname (str "http://localhost:x.vercel.app") = none ∧
    str ".vercel.app" <:+ str "http://localhost:x.vercel.app" ∧
    isOriginAllowed defaultAllowedOrigins
      (some (str "http://localhost:x.vercel.app")) = true := by
  decide

/-- C1 (amended): `isOriginAllowed` is a total function (it never
throws), and a URL-parse failure in the suffix-match rule never itself
permits: a non-empty origin string that is not parseable as a URL is
denied unless it matches one of the rules that do not parse URLs at all —
an exact allow-list entry, the wildcard sentinel, or the insecure
loopback prefixes. -/
theorem c1_unparseable_origin_denied
    (cfg : List Str) (s : Str)
    (hp : parseURLHostname s = none) (hne : s ≠ [])
    (hmem : s ∉ cfg) (hw : str "*" ∉ cfg)
    (hlb : ¬ (str "http://localhost:" <+: s ∨ str "http://127.0.0.1:" <+: s)) :
    isOriginAllowed cfg (some s) = false := by
  unfold isOriginAllowed
  rw [if_neg ?hfalsy]
  case hfalsy =>
    rintro (h | h)
    · exact Option.noConfusion h
    · exact hne (Option.some.inj h)
  show isOriginAllowedStr cfg s = false
  have hsub : vercelSubdomainOf s = none := by
    unfold vercelSubdomainOf
    rw [hp]
    rfl
  unfold isOriginAllowedStr
  rw [if_neg hmem, if_neg hw, if_neg ?hrule, if_neg hlb]
  case hrule =>
    rintro ⟨-, htok⟩
    rw [hsub] at htok
    exact htok

theorem c1_witness :
    parseURLHostname (str "not a url") = none ∧
    isOriginAllowed defaultAllowedOrigins (some (str "not a url")) = false :=
  ⟨by decide,
   c1_unparseable_origin_denied defaultAllowedOrigins (str "not a url")
     (by decide) (by decide) (by decide) (by decide) (by decide)⟩

/-- C4: with the default configured allow-list (which contains no
wildcard sentinel), every origin of the form `https://<sub>.vercel.app`
whose computed subdomain does not match the configured project-name
token is denied. -/
theorem c4_vercel_origin_without_token_denied
    (sub : Str)
    (h : ∀ d,
      vercelSubdomainOf (str "https://" ++ sub ++ str ".vercel.app") = some d →
      ¬ vercelTokenMatch d) :
    isOriginAllowed defaultAllowedOrigins
      (some (str "https://" ++ sub ++ str ".vercel.app")) = false := by
  unfold isOriginAllowed
  rw [if_neg ?hfalsy]
  case hfalsy =>
    rintro (hc | hc)
    · exact Option.noConfusion hc
    · exact List.cons_ne_nil _ _ (Option.some.inj hc)
  show isOriginAllowedStr defaultAllowedOrigins
    (str "https://" ++ sub ++ str ".vercel.app") = false
  have hne1 : str "https://" ++ sub ++ str ".vercel.app" ≠
      str "https://mentora-agentic-ai-frontend.vercel.app" := by
    intro he
    have hd : vercelSubdomainOf (str "https://" ++ sub ++ str ".vercel.app") =
        some (str "mentora-agentic-ai-frontend") := by
      rw [he]; decide
    exact h _ hd (by decide)
  have hne2 : str "https://" ++ sub ++ str ".vercel.app" ≠
      str "http://localhost:3000" := by
    intro he
    have h4 : (str "https://" ++ sub ++ str ".vercel.app").get? 4 = some 's' :=
      rfl
    rw [he] at h4
    exact absurd h4 (by decide)
  have hne3 : str "https://" ++ sub ++ str ".vercel.app" ≠
      str "http://localhost:3001" := by
    intro he
    have h4 : (str "https://" ++ sub ++ str ".vercel.app").get? 4 = some 's' :=
      rfl
    rw [he] at h4
    exact absurd h4 (by decide)
  unfold isOriginAllowedStr
  rw [if_neg ?hmem, if_neg (by decide), if_neg ?hrule, if_neg ?hlb]
  case hmem =>
    intro hm
    rcases List.mem_cons.mp hm with h1 | hm
    · exact hne1 h1
    rcases List.mem_cons.mp hm with h2 | hm
    · exact hne2 h2
    rcases List.mem_cons.mp hm with h3 | hm
    · exact hne3 h3
    · cases hm
  case hrule =>
    rintro ⟨-, htok⟩
    cases hds : vercelSubdomainOf (str "https://" ++ sub ++ str ".vercel.app") with
    | none => rw [hds] at htok; exact htok
    | some d => rw [hds] at htok; exact h d hds htok
  case hlb =>
    rintro (⟨t, ht⟩ | ⟨t, ht⟩)
    · have h4 : (str "http://localhost:" ++ t).get? 4 = some ':' := rfl
      rw [ht] at h4
      have h5 : (str "https://" ++ sub ++ str ".vercel.app").get? 4 = some 's' :=
        rfl
      exact absurd (h4.symm.trans h5) (by decide)
    · have h4 : (str "http://127.0.0.1:" ++ t).get? 4 = some ':' := rfl
      rw [ht] at h4
      have h5 : (str "https://" ++ sub ++ str ".vercel.app").get? 4 = some 's' :=
        rfl
      exact absurd (h4.symm.trans h5) (by decide)

theorem c4_witness :
    isOriginAllowed defaultAllowedOrigins
      (some (str "https://" ++ str "evil" ++ str ".vercel.app")) = false :=
  c4_vercel_origin_without_token_denied (str "evil")
    (fun d hd => by
      have hv : vercelSubdomainOf
          (str "https://" ++ str "evil" ++ str ".vercel.app") =
          some (str "evil") := by decide
      rw [hv] at hd
      rw [← Option.some.inj hd]
      decide)

/-- C9: the source's `isOriginAllowed` implements exactly the ordered
first-match-wins decision the specification states: absent (falsy)
origin permitted, then exact allow-list match, then the wildcard
sentinel, then the Vercel suffix rule with the project-name token, then
the insecure loopback prefixes, and otherwise deny. -/
theorem c9_ordered_first_match_policy :
    ∀ (cfg : List Str) (origin : Option Str),
      isOriginAllowed cfg origin = specOriginPolicy cfg origin := by
  intro cfg origin
  rfl
